import Mathlib

/-!
Verification development for the agent-run orchestration core.

Shallow embedding of `backend/services/token_billing.py`,
`backend/utils/constants.py`, `backend/agent/api.py` and
`backend/run_agent_background.py`.  Machine integers of the source are
Python arbitrary-precision integers, embedded as `Int`.  Timestamps are
embedded as `Int` (seconds for Redis lock timestamps, days for billing
reset dates; each use site says which).  Fallible code returns `Except`
or `Option`.
-/

/-! ## Plan catalog and credit conversion (`backend/utils/constants.py`) -/

/-- `PLANS[p]['token_quota']` from `utils/constants.py` (`-1` encodes the
unlimited BYOK quota, as in the source). -/
def plan_token_quota (plan_id : String) : Option Int :=
  if plan_id = "free" then some 100000
  else if plan_id = "pro" then some 750000
  else if plan_id = "premium" then some 1250000
  else if plan_id = "byok" then some (-1)
  else none

/-- `get_credits_from_tokens` from `utils/constants.py`: `0` when
`tokens <= 0`, otherwise floor division by 5000 (Python `//` on a
positive divisor is floor division, i.e. `Int.ediv`). -/
def get_credits_from_tokens (tokens : Int) : Int :=
  if tokens ≤ 0 then 0 else Int.ediv tokens 5000

/-! ## Billing data model (`basejump.billing_customers` row) -/

/-- The columns of a `billing_customers` row that the billing service
reads or writes.  `quota_resets_at` is in days. -/
structure BillingRow where
  account_id : String
  plan_id : String
  token_quota_total : Int
  token_quota_remaining : Int
  email : String
  quota_resets_at : Int
deriving Repr, DecidableEq

/-- A `token_usage_log` insert (the fields the claims mention). -/
structure UsageRecord where
  account_id : String
  model : String
  total_tokens : Int
  tokens_remaining_after : Int
deriving Repr, DecidableEq

/-- The success payload of `consume_tokens`. -/
structure ConsumeOk where
  tokens_consumed : Int
  tokens_remaining : Int
  credits_remaining : Int
  plan_id : String
deriving Repr, DecidableEq

/-- `InsufficientTokensError` payload (`token_billing.py` lines 13-18). -/
structure InsufficientTokens where
  remaining_tokens : Int
  remaining_credits : Int
deriving Repr, DecidableEq

/-! ## The conditional debit (`_consume_tokens_fallback`, lines 186-214)

The fallback UPDATE writes `current_remaining - tokens_used`, where
`current_remaining` was read *before* the update (line 146), guarded by
`WHERE token_quota_remaining >= tokens_used` evaluated against the live
value.  `fallbackUpdate readVal n live` returns the stored value when the
guard passes. -/

/-- One conditional UPDATE of the fallback path: succeeds (returning the
value it stores, `readVal - n`) iff the live remaining is `≥ n`. -/
def fallbackUpdate (readVal n live : Int) : Option Int :=
  if live ≥ n then some (readVal - n) else none

/-- Sequential (single-call) execution of `_consume_tokens_fallback`:
read `current_remaining`, attempt the conditional UPDATE against the same
(unchanged) live value, then either insert the usage record and return
the success dict, or re-read the fresh remaining and raise
`InsufficientTokensError` with tokens and credits.  Returns the resulting
billing row alongside, so that "no write occurred" is the row being
returned unchanged. -/
def _consume_tokens_fallback (row : BillingRow) (tokens_used : Int) (model : String) :
    BillingRow × Except InsufficientTokens (UsageRecord × ConsumeOk) :=
  let current_remaining := row.token_quota_remaining
  match fallbackUpdate current_remaining tokens_used row.token_quota_remaining with
  | some new_remaining =>
    let row2 := { row with token_quota_remaining := new_remaining }
    (row2, .ok
      ({ account_id := row.account_id, model := model, total_tokens := tokens_used,
         tokens_remaining_after := new_remaining },
       { tokens_consumed := tokens_used, tokens_remaining := new_remaining,
         credits_remaining := get_credits_from_tokens new_remaining,
         plan_id := row.plan_id }))
  | none =>
    let fresh_remaining := row.token_quota_remaining
    (row, .error { remaining_tokens := fresh_remaining,
                   remaining_credits := get_credits_from_tokens fresh_remaining })

/-- `consume_tokens` (`token_billing.py` lines 20-121) for an existing
billing row: BYOK plans log usage without deducting and report
`credits_remaining = -1`; every other plan goes through
`_consume_tokens_fallback`. -/
def consume_tokens (row : BillingRow) (tokens_used : Int) (model : String) :
    BillingRow × Except InsufficientTokens (UsageRecord × ConsumeOk) :=
  if row.plan_id = "byok" then
    (row, .ok
      ({ account_id := row.account_id, model := model, total_tokens := tokens_used,
         tokens_remaining_after := row.token_quota_remaining },
       { tokens_consumed := tokens_used, tokens_remaining := row.token_quota_remaining,
         credits_remaining := -1, plan_id := row.plan_id }))
  else
    _consume_tokens_fallback row tokens_used model

/-! ## Concurrent schedules of the fallback debit (claim C1)

Each in-flight `_consume_tokens_fallback` call is split into its two
storage round-trips: the SELECT of `current_remaining` (line 137) and the
conditional UPDATE (line 189).  A schedule interleaves these steps of
several calls against one shared `token_quota_remaining`. -/

/-- The per-call bookkeeping of one in-flight fallback debit. -/
structure DebitCall where
  n : Int
  readVal : Option Int
  result : Option Bool
deriving Repr, DecidableEq

/-- The shared billing value plus all in-flight calls. -/
structure LedgerState where
  remaining : Int
  calls : List DebitCall
deriving Repr, DecidableEq

/-- One storage round-trip of call `i`: its SELECT or its UPDATE. -/
inductive DebitStep
  | readStep (i : Nat)
  | updateStep (i : Nat)
deriving Repr, DecidableEq

/-- Execute one step.  A read records the live remaining; an update runs
`fallbackUpdate` with the call's recorded read against the live value,
exactly as lines 189-196 do.  Steps out of program order are no-ops. -/
def debitStep (s : LedgerState) : DebitStep → LedgerState
  | .readStep i =>
    match s.calls.get? i with
    | some c =>
      if c.readVal = none then
        { s with calls := s.calls.set i { c with readVal := some s.remaining } }
      else s
    | none => s
  | .updateStep i =>
    match s.calls.get? i with
    | some c =>
      match c.readVal, c.result with
      | some v, none =>
        match fallbackUpdate v c.n s.remaining with
        | some newRem =>
          { remaining := newRem, calls := s.calls.set i { c with result := some true } }
        | none =>
          { s with calls := s.calls.set i { c with result := some false } }
      | _, _ => s
    | none => s

/-- Run a schedule of steps from an initial remaining and call list. -/
def runDebits (init : Int) (ns : List Int) (sched : List DebitStep) : LedgerState :=
  sched.foldl debitStep
    { remaining := init,
      calls := ns.map fun n => { n := n, readVal := none, result := none } }

/-- Sum of the `n_i` of the calls that completed successfully. -/
def successfulSum (s : LedgerState) : Int :=
  (s.calls.filterMap fun c => if c.result = some true then some c.n else none).sum

/-! ## Billing-record creation for new accounts (lines 375-413) -/

/-- `_create_billing_record`: no-op when a row exists; otherwise insert a
free-plan row with full quota, a placeholder email, and a reset date 30
days ahead (`now` is in days). -/
def _create_billing_record (now : Int) (account_id : String) (db : Option BillingRow) :
    Option BillingRow :=
  match db with
  | some row => some row
  | none =>
    some { account_id := account_id
           plan_id := "free"
           token_quota_total := (plan_token_quota "free").getD 0
           token_quota_remaining := (plan_token_quota "free").getD 0
           email := "missing_email_" ++ account_id ++ "@placeholder.com"
           quota_resets_at := now + 30 }

/-- `consume_tokens` including the missing-row path (lines 44-52): when
no billing row exists, create the fallback record and proceed against
it.  The first component is the resulting database row. -/
def consume_tokens_db (now : Int) (account_id : String) (db : Option BillingRow)
    (tokens_used : Int) (model : String) :
    Option BillingRow × Except InsufficientTokens (UsageRecord × ConsumeOk) :=
  match db with
  | some row =>
    let r := consume_tokens row tokens_used model
    (some r.1, r.2)
  | none =>
    match _create_billing_record now account_id none with
    | some row =>
      let r := consume_tokens row tokens_used model
      (some r.1, r.2)
    | none => (none, .error { remaining_tokens := 0, remaining_credits := 0 })

/-- The dict returned by `get_user_token_status` (the fields the claims
mention). -/
structure TokenStatus where
  account_id : String
  plan : String
  tokens_remaining : Int
  tokens_total : Int
  credits_remaining : Int
  quota_resets_at : Int
deriving Repr, DecidableEq

/-- `get_user_token_status` (lines 256-311) including the missing-row
path: create the fallback record when absent, then report plan, tokens,
credits (`-1` for BYOK) and reset date from the row. -/
def get_user_token_status_db (now : Int) (account_id : String) (db : Option BillingRow) :
    Option BillingRow × Option TokenStatus :=
  let db1 :=
    match db with
    | some row => some row
    | none => _create_billing_record now account_id none
  match db1 with
  | some row =>
    (some row,
     some { account_id := row.account_id
            plan := row.plan_id
            tokens_remaining := row.token_quota_remaining
            tokens_total := row.token_quota_total
            credits_remaining :=
              if row.plan_id = "byok" then -1
              else get_credits_from_tokens row.token_quota_remaining
            quota_resets_at := row.quota_resets_at })
  | none => (none, none)

/-- The fallback free-plan billing row that `_create_billing_record`
inserts for an account with no row (`now` in days). -/
def freeFallbackRow (now : Int) (account_id : String) : BillingRow :=
  { account_id := account_id
    plan_id := "free"
    token_quota_total := 100000
    token_quota_remaining := 100000
    email := "missing_email_" ++ account_id ++ "@placeholder.com"
    quota_resets_at := now + 30 }

/-- C1: refuted as stated.  The fallback debit is *not* evaluated against
the value at update time: the UPDATE stores the stale pre-read
`current_remaining - n` under a live `remaining >= n` guard.  With
initial remaining 100 and two concurrent debits n₁ = 30, n₂ = 40 whose
SELECTs both precede the UPDATEs, both calls succeed, yet the final
remaining is 60 = 100 - 40 instead of 100 - (30 + 40) = 30: the first
debit is lost. -/
theorem C1_fallback_debit_loses_update :
    (runDebits 100 [30, 40]
      [.readStep 0, .readStep 1, .updateStep 0, .updateStep 1]).remaining = 60 ∧
    successfulSum (runDebits 100 [30, 40]
      [.readStep 0, .readStep 1, .updateStep 0, .updateStep 1]) = 70 ∧
    (runDebits 100 [30, 40]
      [.readStep 0, .readStep 1, .updateStep 0, .updateStep 1]).remaining ≠
      100 - successfulSum (runDebits 100 [30, 40]
        [.readStep 0, .readStep 1, .updateStep 0, .updateStep 1]) := by
  decide

/-- C5: for a non-BYOK row with remaining r, `consume_tokens` with n = r
succeeds and leaves remaining = 0, while n = r + 1 raises
`InsufficientTokensError` carrying the fresh remaining tokens and
credits, with the billing row returned unchanged (no write). -/
theorem C5_consume_tokens_boundary (row : BillingRow) (m : String)
    (hplan : row.plan_id ≠ "byok") :
    (consume_tokens row row.token_quota_remaining m).1 =
      { row with token_quota_remaining := 0 } ∧
    (∃ u ok, (consume_tokens row row.token_quota_remaining m).2 = .ok (u, ok) ∧
      ok.tokens_remaining = 0) ∧
    consume_tokens row (row.token_quota_remaining + 1) m =
      (row, .error { remaining_tokens := row.token_quota_remaining,
                     remaining_credits := get_credits_from_tokens row.token_quota_remaining }) := by
  have h1 : row.token_quota_remaining ≥ row.token_quota_remaining := le_refl _
  have h2 : ¬ (row.token_quota_remaining ≥ row.token_quota_remaining + 1) := by omega
  refine ⟨?_, ?_, ?_⟩
  · simp [consume_tokens, _consume_tokens_fallback, fallbackUpdate, hplan, h1]
  · simp only [consume_tokens, _consume_tokens_fallback, fallbackUpdate, if_neg hplan,
      if_pos h1, sub_self]
    exact ⟨_, _, rfl, rfl⟩
  · simp [consume_tokens, _consume_tokens_fallback, fallbackUpdate, hplan, h2]

/-- Witness for C5 at a concrete free-plan row with 3000 tokens left. -/
theorem C5_consume_tokens_boundary_witness :
    (consume_tokens ⟨"acc-2", "free", 100000, 3000, "a@b", 0⟩ 3000 "gpt-4").1 =
      { (⟨"acc-2", "free", 100000, 3000, "a@b", 0⟩ : BillingRow) with
        token_quota_remaining := 0 } ∧
    (∃ u ok, (consume_tokens ⟨"acc-2", "free", 100000, 3000, "a@b", 0⟩ 3000 "gpt-4").2 =
        .ok (u, ok) ∧ ok.tokens_remaining = 0) ∧
    consume_tokens ⟨"acc-2", "free", 100000, 3000, "a@b", 0⟩ 3001 "gpt-4" =
      (⟨"acc-2", "free", 100000, 3000, "a@b", 0⟩,
       .error { remaining_tokens := 3000, remaining_credits := get_credits_from_tokens 3000 }) :=
  C5_consume_tokens_boundary ⟨"acc-2", "free", 100000, 3000, "a@b", 0⟩ "gpt-4" (by decide)

/-- C10: for an account with no billing row, `consume_tokens` and
`get_user_token_status` first create the fallback free-plan record
(quota total = remaining = 100000, placeholder email, reset 30 days
ahead) and then proceed against that record; neither fails. -/
theorem C10_missing_billing_row_fallback (now : Int) (acct : String)
    (n : Int) (m : String) :
    _create_billing_record now acct none = some (freeFallbackRow now acct) ∧
    (freeFallbackRow now acct).plan_id = "free" ∧
    (freeFallbackRow now acct).token_quota_total = 100000 ∧
    (freeFallbackRow now acct).token_quota_remaining = 100000 ∧
    (freeFallbackRow now acct).email =
      "missing_email_" ++ acct ++ "@placeholder.com" ∧
    (freeFallbackRow now acct).quota_resets_at = now + 30 ∧
    consume_tokens_db now acct none n m =
      (some (consume_tokens (freeFallbackRow now acct) n m).1,
       (consume_tokens (freeFallbackRow now acct) n m).2) ∧
    (get_user_token_status_db now acct none).2 =
      some { account_id := acct, plan := "free", tokens_remaining := 100000,
             tokens_total := 100000, credits_remaining := 20,
             quota_resets_at := now + 30 } := by
  have hq : (plan_token_quota "free").getD 0 = 100000 := by decide
  have hc : get_credits_from_tokens 100000 = 20 := by decide
  refine ⟨rfl, rfl, rfl, rfl, rfl, rfl, ?_, ?_⟩
  · simp [consume_tokens_db, _create_billing_record, freeFallbackRow, hq]
  · simp [get_user_token_status_db, _create_billing_record, freeFallbackRow, hq, hc]

/-! ## Run dispatcher: `stop_agent` (`agent/api.py` lines 816-854) -/

/-- The columns of an `agent_runs` row the stop endpoint can touch. -/
structure AgentRunRow where
  run_id : String
  thread_id : String
  status : String
  error : Option String
  started_at : Int
  completed_at : Option Int
deriving Repr, DecidableEq

/-- Outcome of the stop endpoint: a success body or an HTTP error. -/
inductive StopOutcome
  | ok (status : String)
  | httpError (code : Nat)
deriving Repr, DecidableEq

/-- `stop_agent` after the access check: when the run's status is not
`running`/`queued` it raises HTTP 400 ("Cannot stop agent run with
status: ..."); otherwise it publishes STOP via `stop_agent_run` and, on
publish success, updates the row to `stopping`.  `publish_ok` is whether
the Redis publish succeeded.  The second component is the resulting run
row. -/
def stop_agent (run : AgentRunRow) (publish_ok : Bool) : StopOutcome × AgentRunRow :=
  if run.status = "running" ∨ run.status = "queued" then
    if publish_ok then
      (.ok "stopping", { run with status := "stopping" })
    else (.httpError 500, run)
  else (.httpError 400, run)

/-- C2 counterexample: on a concrete run whose status is the terminal
"completed", `stop_agent` does not succeed as an idempotent no-op — it
raises HTTP 400. -/
theorem C2_stop_terminal_is_http_400 :
    (stop_agent ⟨"r1", "t1", "completed", none, 0, some 5⟩ true).1 = .httpError 400 ∧
    (stop_agent ⟨"r1", "t1", "completed", none, 0, some 5⟩ true).1 ≠ .ok "stopping" := by
  decide

/-- C2 amended: for every run in a terminal status (completed, stopped
or failed), `stop_agent` rejects the request with HTTP 400 and leaves the
run row (status and all other fields) unchanged. -/
theorem C2_stop_terminal_rejects_unchanged (run : AgentRunRow) (publish_ok : Bool)
    (hterm : run.status = "completed" ∨ run.status = "stopped" ∨ run.status = "failed") :
    stop_agent run publish_ok = (.httpError 400, run) := by
  have h1 : ¬ (run.status = "running" ∨ run.status = "queued") := by
    rcases hterm with h | h | h <;> simp [h]
  simp [stop_agent, h1]

/-- Witness for the amended C2 at a concrete stopped run. -/
theorem C2_stop_terminal_rejects_unchanged_witness :
    stop_agent ⟨"r9", "t9", "stopped", none, 1, some 2⟩ false = (.httpError 400, ⟨"r9", "t9", "stopped", none, 1, some 2⟩) :=
  C2_stop_terminal_rejects_unchanged ⟨"r9", "t9", "stopped", none, 1, some 2⟩ false
    (by decide)

/-! ## App-type validation (`agent/api.py` lines 205-208 and 989-992) -/

/-- Both endpoints run the same check: an `app_type` outside
`['web', 'mobile']` is logged and coerced to `"web"`; there is no
rejection branch. -/
def validate_app_type (app_type : String) : String :=
  if app_type = "web" ∨ app_type = "mobile" then app_type else "web"

/-- How a request proceeds past the app-type check. -/
inductive RequestStep
  | proceed (app_type : String)
  | reject (code : Nat)
deriving Repr, DecidableEq

/-- The app-type step of `POST /thread/.../agent/start` (lines 205-208):
always proceeds, with the coerced app type. -/
def start_agent_app_type_check (app_type : String) : RequestStep :=
  .proceed (validate_app_type app_type)

/-- The app-type step of `POST /agent/initiate` (lines 989-992): always
proceeds, with the coerced app type. -/
def initiate_agent_app_type_check (app_type : String) : RequestStep :=
  .proceed (validate_app_type app_type)

/-- C8 counterexample: the concrete invalid app_type "desktop" is not
rejected with HTTP 400 by either endpoint — both coerce it to "web" and
proceed. -/
theorem C8_invalid_app_type_not_rejected :
    initiate_agent_app_type_check "desktop" = .proceed "web" ∧
    start_agent_app_type_check "desktop" = .proceed "web" ∧
    initiate_agent_app_type_check "desktop" ≠ .reject 400 ∧
    start_agent_app_type_check "desktop" ≠ .reject 400 := by
  decide

/-- C8 amended: a request whose app_type is neither "web" nor "mobile"
is not rejected; both endpoints coerce the app_type to "web" and continue
processing the request as a web request. -/
theorem C8_invalid_app_type_coerced_to_web (a : String)
    (hw : a ≠ "web") (hm : a ≠ "mobile") :
    initiate_agent_app_type_check a = .proceed "web" ∧
    start_agent_app_type_check a = .proceed "web" := by
  have h : ¬ (a = "web" ∨ a = "mobile") := by simp [hw, hm]
  constructor <;>
    simp [initiate_agent_app_type_check, start_agent_app_type_check, validate_app_type, h]

/-- Witness for the amended C8 at the concrete app_type "desktop". -/
theorem C8_invalid_app_type_coerced_to_web_witness :
    initiate_agent_app_type_check "desktop" = .proceed "web" ∧
    start_agent_app_type_check "desktop" = .proceed "web" :=
  C8_invalid_app_type_coerced_to_web "desktop" (by decide) (by decide)

/-! ## SSE initial phase (`agent/api.py` lines 474-493) -/

/-- One event of the SSE stream. -/
inductive SSEEvent
  | item (payload : String)
  | statusEvent (status : String)
  | ping
deriving Repr, DecidableEq

/-- The initial phase of `stream_generator`: replay the whole response
list from index 0, then read the durable status; when it is anything
other than "running" (including absent), emit one final event with the
literal status "completed" and close.  Returns the emitted events and
whether the stream closed in this phase. -/
def stream_initial_phase (responses : List String) (db_status : Option String) :
    List SSEEvent × Bool :=
  let replay := responses.map SSEEvent.item
  if db_status = some "running" then (replay, false)
  else (replay ++ [SSEEvent.statusEvent "completed"], true)

/-- C9: for every connection to a run whose durable status is anything
other than "running" — queued, stopping, stopped, failed, or no row at
all — the stream emits the full history from index 0 followed by exactly
one final status event with the literal value "completed", and closes. -/
theorem C9_nonrunning_stream_replays_then_completed
    (responses : List String) (db_status : Option String)
    (h : db_status ≠ some "running") :
    stream_initial_phase responses db_status =
      (responses.map SSEEvent.item ++ [SSEEvent.statusEvent "completed"], true) := by
  simp [stream_initial_phase, h]

/-- Witness for C9: a failed run with two historical items still ends
with the literal "completed" status event. -/
theorem C9_nonrunning_stream_replays_then_completed_witness :
    stream_initial_phase ["a", "b"] (some "failed") =
      (List.map SSEEvent.item ["a", "b"] ++ [SSEEvent.statusEvent "completed"], true) :=
  C9_nonrunning_stream_replays_then_completed ["a", "b"] (some "failed") (by decide)

/-! ## Dispatcher overlap handling (`agent/api.py` lines 361-441) -/

/-- A run row as the dispatcher sees it (joined with its project). -/
structure RunRec where
  run_id : String
  project_id : String
  status : String
deriving Repr, DecidableEq

/-- The dispatcher's world: the durable run rows plus every control
message published so far, as (channel, message) pairs. -/
structure DispatchWorld where
  runs : List RunRec
  control_msgs : List (String × String)
deriving Repr, DecidableEq

/-- Modelled from the spec: `check_for_active_project_agent_run`
(imported in `agent/api.py` line 29 from `agent/utils.py`, which is not
in the sources) — "scan runs belonging to threads of the same project;
if one is in queued/running", return its id. -/
def check_for_active_project_agent_run (runs : List RunRec) (project_id : String) :
    Option String :=
  (runs.find? fun r =>
    r.project_id == project_id && (r.status == "queued" || r.status == "running")).map
    (fun r => r.run_id)

/-- `stop_agent_run` (`run_agent_background.py` lines 652-675) with no
instance target: publish STOP on the run's global control channel; no
run row is touched and nothing is awaited. -/
def stop_agent_run (w : DispatchWorld) (agent_run_id : String) : DispatchWorld :=
  { w with control_msgs :=
      w.control_msgs ++ [("agent_run:" ++ agent_run_id ++ ":control", "STOP")] }

/-- The overlap step of `start_agent` (lines 361-364 and 384-396): if an
active (queued/running) run exists for the project, publish STOP to it;
then — immediately, with no wait for that run to leave queued/running —
insert the new run row with status "running" and enqueue it. -/
def start_agent_overlap_step (w : DispatchWorld) (project_id new_run_id : String) :
    DispatchWorld :=
  let w1 :=
    match check_for_active_project_agent_run w.runs project_id with
    | some rid => stop_agent_run w rid
    | none => w
  { w1 with runs :=
      w1.runs ++ [{ run_id := new_run_id, project_id := project_id, status := "running" }] }

/-- Number of runs of a project in status queued or running. -/
def activeRunCount (runs : List RunRec) (project_id : String) : Nat :=
  (runs.filter fun r =>
    r.project_id == project_id && (r.status == "queued" || r.status == "running")).length

/-- C3 counterexample: with one run of project p1 still running, the
start step publishes STOP and immediately persists the new run, so two
runs of p1 are simultaneously in queued/running — the claimed "at most
one at any instant" bound fails. -/
theorem C3_start_does_not_wait_two_active :
    activeRunCount
      (start_agent_overlap_step ⟨[⟨"r3", "p1", "running"⟩], []⟩ "p1" "r4").runs "p1" = 2 ∧
    ¬ activeRunCount
      (start_agent_overlap_step ⟨[⟨"r3", "p1", "running"⟩], []⟩ "p1" "r4").runs "p1" ≤ 1 := by
  decide

/-- C3 amended: when `start_agent` finds an existing run of the project
in queued/running it publishes STOP on that run's global control channel,
but then persists and enqueues the new run immediately, without waiting
for the old run to leave those statuses; starting from a world with at
most one active run per project, the step therefore leaves up to two
runs of the project simultaneously in queued/running. -/
theorem C3_start_publishes_stop_then_inserts (w : DispatchWorld)
    (project_id new_run_id : String)
    (h : activeRunCount w.runs project_id ≤ 1) :
    (start_agent_overlap_step w project_id new_run_id).runs =
      w.runs ++ [{ run_id := new_run_id, project_id := project_id, status := "running" }] ∧
    (start_agent_overlap_step w project_id new_run_id).control_msgs =
      (match check_for_active_project_agent_run w.runs project_id with
       | some rid => w.control_msgs ++ [("agent_run:" ++ rid ++ ":control", "STOP")]
       | none => w.control_msgs) ∧
    activeRunCount (start_agent_overlap_step w project_id new_run_id).runs project_id =
      activeRunCount w.runs project_id + 1 ∧
    activeRunCount (start_agent_overlap_step w project_id new_run_id).runs project_id ≤ 2 := by
  have hstep : (start_agent_overlap_step w project_id new_run_id).runs =
      w.runs ++ [{ run_id := new_run_id, project_id := project_id, status := "running" }] := by
    unfold start_agent_overlap_step
    cases check_for_active_project_agent_run w.runs project_id <;> simp [stop_agent_run]
  have hcount : activeRunCount (start_agent_overlap_step w project_id new_run_id).runs project_id =
      activeRunCount w.runs project_id + 1 := by
    rw [hstep]
    simp [activeRunCount, List.filter_append]
  refine ⟨hstep, ?_, hcount, by omega⟩
  unfold start_agent_overlap_step
  cases check_for_active_project_agent_run w.runs project_id <;> simp [stop_agent_run]

/-- Witness for the amended C3 in the concrete one-running-run world. -/
theorem C3_start_publishes_stop_then_inserts_witness :
    (start_agent_overlap_step ⟨[⟨"r3", "p1", "running"⟩], []⟩ "p1" "r4").runs =
      [⟨"r3", "p1", "running"⟩] ++ [{ run_id := "r4", project_id := "p1", status := "running" }] ∧
    (start_agent_overlap_step ⟨[⟨"r3", "p1", "running"⟩], []⟩ "p1" "r4").control_msgs =
      (match check_for_active_project_agent_run [⟨"r3", "p1", "running"⟩] "p1" with
       | some rid => ([] : List (String × String)) ++ [("agent_run:" ++ rid ++ ":control", "STOP")]
       | none => ([] : List (String × String))) ∧
    activeRunCount (start_agent_overlap_step ⟨[⟨"r3", "p1", "running"⟩], []⟩ "p1" "r4").runs "p1" =
      activeRunCount [⟨"r3", "p1", "running"⟩] "p1" + 1 ∧
    activeRunCount (start_agent_overlap_step ⟨[⟨"r3", "p1", "running"⟩], []⟩ "p1" "r4").runs "p1" ≤ 2 :=
  C3_start_publishes_stop_then_inserts ⟨[⟨"r3", "p1", "running"⟩], []⟩ "p1" "r4" (by decide)

/-! ## Run executor (`run_agent_background.py` lines 278-344) -/

/-- One stream item produced by the agent generator; the executor only
inspects `type`, `status` and `message` (via `dict.get`). -/
structure StreamItem where
  type : Option String
  status : Option String
  message : Option String
deriving Repr, DecidableEq

/-- The executor's externally visible actions, in issue order. -/
inductive ExecEffect
  | rpushItem (it : StreamItem)
  | publishNew
  | updateDB (status : String) (error : Option String)
  | publishControl (signal : String)
  | updateTaskStatus (status : String)
deriving Repr, DecidableEq

/-- Line 297-299: an item with `type = "status"` and `status` in
completed/failed/stopped terminates the loop. -/
def isTerminalStatusItem (it : StreamItem) : Bool :=
  it.type == some "status" &&
    (it.status == some "completed" || it.status == some "failed" ||
     it.status == some "stopped")

/-- Whether the shared `stop_signal_received` flag is observed set at
iteration `i`; `stopAt = some s` means the flag is set from iteration `s`
on, `none` means never. -/
def stopObserved (stopAt : Option Nat) (i : Nat) : Bool :=
  match stopAt with
  | some s => decide (s ≤ i)
  | none => false

/-- The `async for` loop of lines 283-304, starting at iteration `i`:
per item, first the stop-flag check (break with "stopped"), then the
append and the "new" notification, then the terminal-status check (break
with that status, capturing the message as error for failed/stopped).
Returns (final_status, error_message, effects); final_status "running"
means the generator was exhausted. -/
def runExecLoop : List StreamItem → Option Nat → Nat → String × Option String × List ExecEffect
  | [], _, _ => ("running", none, [])
  | it :: rest, stopAt, i =>
    if stopObserved stopAt i then ("stopped", none, [])
    else
      if isTerminalStatusItem it then
        let sv := it.status.getD ""
        let err :=
          if sv = "failed" ∨ sv = "stopped" then
            some (it.message.getD ("Run ended with status: " ++ sv))
          else none
        (sv, err, [.rpushItem it, .publishNew])
      else
        let r := runExecLoop rest stopAt (i + 1)
        (r.1, r.2.1, .rpushItem it :: .publishNew :: r.2.2)

/-- The synthetic item appended when the loop exits with no terminal
status (line 315). -/
def completionMessage : StreamItem :=
  { type := some "status", status := some "completed",
    message := some "Agent run completed successfully" }

/-- Line 333: the final control signal determined by the final status. -/
def controlSignal (final_status : String) : String :=
  if final_status = "completed" then "END_STREAM"
  else if final_status = "failed" then "ERROR"
  else "STOP"

/-- Lines 306-344: if the loop ended with status "running" (generator
exhausted, no terminal item, no stop), become "completed" and append the
one synthetic completion item plus its notification; then update the
durable row, publish the final control signal, and update the transient
task status. -/
def execFinalize (loopStatus : String) (err : Option String)
    (loopEffects : List ExecEffect) : String × List ExecEffect :=
  let p :=
    if loopStatus = "running" then
      ("completed", loopEffects ++ [.rpushItem completionMessage, .publishNew])
    else (loopStatus, loopEffects)
  (p.1, p.2 ++ [.updateDB p.1 err, .publishControl (controlSignal p.1),
                .updateTaskStatus p.1])

/-- The non-exceptional body of `run_agent_background` after lock
acquisition: drive the loop over the generator's items, then finalize. -/
def run_agent_background_try (items : List StreamItem) (stopAt : Option Nat) :
    String × List ExecEffect :=
  let r := runExecLoop items stopAt 0
  execFinalize r.1 r.2.1 r.2.2

/-- The per-item append/notify effects of a fully consumed generator. -/
def loopAppendEffects : List StreamItem → List ExecEffect
  | [] => []
  | it :: rest => .rpushItem it :: .publishNew :: loopAppendEffects rest

/-- A generator exhausted with no terminal item and no stop signal leaves
the loop in status "running" having appended and notified every item. -/
theorem runExecLoop_exhausted (items : List StreamItem) (i : Nat)
    (h : ∀ it ∈ items, isTerminalStatusItem it = false) :
    runExecLoop items none i = ("running", none, loopAppendEffects items) := by
  induction items generalizing i with
  | nil => rfl
  | cons it rest ih =>
    have hit : isTerminalStatusItem it = false := h it (List.mem_cons_self it rest)
    have hrest : ∀ x ∈ rest, isTerminalStatusItem x = false :=
      fun x hx => h x (List.mem_cons_of_mem it hx)
    simp [runExecLoop, stopObserved, hit, ih (i + 1) hrest, loopAppendEffects]

/-- C7: for a run whose generator is exhausted with no terminal status
item and no stop signal, the executor appends exactly one synthetic
completed status item after the per-item effects, publishes its
notification, finalizes the run as completed, and publishes the final
control signal; and the signal is END_STREAM for completed, ERROR for
failed, STOP for stopped. -/
theorem C7_exhausted_generator_completes (items : List StreamItem)
    (h : ∀ it ∈ items, isTerminalStatusItem it = false) :
    run_agent_background_try items none =
      ("completed",
       loopAppendEffects items ++
         [.rpushItem completionMessage, .publishNew,
          .updateDB "completed" none, .publishControl "END_STREAM",
          .updateTaskStatus "completed"]) ∧
    completionMessage.type = some "status" ∧
    completionMessage.status = some "completed" ∧
    controlSignal "completed" = "END_STREAM" ∧
    controlSignal "failed" = "ERROR" ∧
    controlSignal "stopped" = "STOP" := by
  refine ⟨?_, rfl, rfl, rfl, rfl, rfl⟩
  unfold run_agent_background_try
  rw [runExecLoop_exhausted items 0 h]
  simp [execFinalize, controlSignal]

/-- Witness for C7 on a two-item generator with no terminal item. -/
theorem C7_exhausted_generator_completes_witness :
    run_agent_background_try
      [⟨some "content", none, none⟩, ⟨some "tool_call", none, some "x"⟩] none =
      ("completed",
       loopAppendEffects [⟨some "content", none, none⟩, ⟨some "tool_call", none, some "x"⟩] ++
         [.rpushItem completionMessage, .publishNew,
          .updateDB "completed" none, .publishControl "END_STREAM",
          .updateTaskStatus "completed"]) ∧
    completionMessage.type = some "status" ∧
    completionMessage.status = some "completed" ∧
    controlSignal "completed" = "END_STREAM" ∧
    controlSignal "failed" = "ERROR" ∧
    controlSignal "stopped" = "STOP" :=
  C7_exhausted_generator_completes
    [⟨some "content", none, none⟩, ⟨some "tool_call", none, some "x"⟩] (by decide)

/-! ## Append/notify task ordering (`run_agent_background.py` lines 290-294)

Lines 292-293 issue the RPUSH and the PUBLISH of each stream item with
`asyncio.create_task` — the RPUSH task first, then the PUBLISH task — and
await neither before the next iteration: the tasks are only gathered in
cleanup (line 463).  The model separates issuing an operation from its
completion at the store; completions may occur in any order. -/

/-- A pending Redis operation of the executor's item loop. -/
inductive ROp
  | rpushOp (payload : String)
  | publishNewOp
deriving Repr, DecidableEq

/-- The observable store state (response list and notification count)
plus the issued-but-incomplete operations, in issue order. -/
structure AsyncState where
  list : List String
  notifications : Nat
  pending : List ROp
deriving Repr, DecidableEq

/-- Lines 292-293 for one item: issue the RPUSH, then the PUBLISH;
return without awaiting either. -/
def issueItem (s : AsyncState) (payload : String) : AsyncState :=
  { s with pending := s.pending ++ [.rpushOp payload, .publishNewOp] }

/-- The store completes the pending operation at position `k`. -/
def completeOp (s : AsyncState) (k : Nat) : AsyncState :=
  match s.pending.get? k with
  | some (.rpushOp p) =>
    { list := s.list ++ [p], notifications := s.notifications,
      pending := s.pending.eraseIdx k }
  | some .publishNewOp =>
    { list := s.list, notifications := s.notifications + 1,
      pending := s.pending.eraseIdx k }
  | none => s

/-- An event of the loop/store interleaving. -/
inductive EAct
  | emit (payload : String)
  | completeAt (k : Nat)
deriving Repr, DecidableEq

/-- Run a sequence of events. -/
def runAsync (s : AsyncState) : List EAct → AsyncState
  | [] => s
  | a :: rest =>
    runAsync (match a with
      | .emit p => issueItem s p
      | .completeAt k => completeOp s k) rest

/-- The state before any item is processed. -/
def initAsync : AsyncState := { list := [], notifications := 0, pending := [] }

/-- C4 counterexample: the executor issues the append then the publish
for item "x", and the store completes the publish first (position 1).
The notification is then observable (count 1) while the list is still
empty — a new_response notification for an item not yet present. -/
theorem C4_notification_before_append :
    (runAsync initAsync [.emit "x", .completeAt 1]).notifications = 1 ∧
    (runAsync initAsync [.emit "x", .completeAt 1]).list = [] ∧
    ¬ (runAsync initAsync [.emit "x", .completeAt 1]).notifications ≤
      (runAsync initAsync [.emit "x", .completeAt 1]).list.length := by
  decide

/-- `+1` for a pending append, `-1` for a pending notification. -/
def opDelta : ROp → Int
  | .rpushOp _ => 1
  | .publishNewOp => -1

/-- Total balance of a pending queue. -/
def sumBal : List ROp → Int
  | [] => 0
  | op :: rest => opDelta op + sumBal rest

/-- Minimum prefix balance of a pending queue. -/
def minBal : List ROp → Int
  | [] => 0
  | op :: rest => min 0 (opDelta op + minBal rest)

theorem minBal_nonpos (l : List ROp) : minBal l ≤ 0 := by
  cases l with
  | nil => simp [minBal]
  | cons op rest => simp [minBal]

theorem sumBal_append (l1 l2 : List ROp) :
    sumBal (l1 ++ l2) = sumBal l1 + sumBal l2 := by
  induction l1 with
  | nil => simp [sumBal]
  | cons op rest ih => simp [sumBal, ih]; ring

theorem minBal_append (l1 l2 : List ROp) :
    minBal (l1 ++ l2) = min (minBal l1) (sumBal l1 + minBal l2) := by
  induction l1 with
  | nil =>
    have h := minBal_nonpos l2
    simp [minBal, sumBal]
    omega
  | cons op rest ih =>
    simp [minBal, sumBal, ih]
    omega

/-- The pending appends/notifies exactly account for the gap between the
list length and the notification count, and no prefix of the pending
queue can complete more notifies than that gap allows. -/
def AsyncInv (s : AsyncState) : Prop :=
  (s.list.length : Int) - s.notifications + sumBal s.pending = 0 ∧
  0 ≤ (s.list.length : Int) - s.notifications + minBal s.pending

theorem asyncInv_issue (s : AsyncState) (p : String) (h : AsyncInv s) :
    AsyncInv (issueItem s p) := by
  obtain ⟨h1, h2⟩ := h
  unfold AsyncInv issueItem
  simp only [sumBal_append, minBal_append]
  constructor
  · simp only [sumBal, opDelta]
    omega
  · simp only [minBal, sumBal, opDelta]
    omega

theorem asyncInv_complete0 (s : AsyncState) (h : AsyncInv s) :
    AsyncInv (completeOp s 0) := by
  obtain ⟨lst, ntf, pend⟩ := s
  obtain ⟨h1, h2⟩ := h
  cases pend with
  | nil => exact ⟨h1, h2⟩
  | cons op rest =>
    cases op with
    | rpushOp p =>
      simp only [sumBal, opDelta, minBal] at h1 h2
      refine ⟨?_, ?_⟩ <;>
        simp only [completeOp, List.get?, List.eraseIdx, List.length_append,
          List.length_cons, List.length_nil] <;> omega
    | publishNewOp =>
      simp only [sumBal, opDelta, minBal] at h1 h2
      refine ⟨?_, ?_⟩ <;>
        simp only [completeOp, List.get?, List.eraseIdx] <;> omega

/-- FIFO events: completions only ever complete the oldest pending
operation. -/
def isFIFOAct : EAct → Bool
  | .emit _ => true
  | .completeAt k => k == 0

theorem asyncInv_run (acts : List EAct) (s : AsyncState)
    (hf : ∀ a ∈ acts, isFIFOAct a = true) (h : AsyncInv s) :
    AsyncInv (runAsync s acts) := by
  induction acts generalizing s with
  | nil => exact h
  | cons a rest ih =>
    have ha : isFIFOAct a = true := hf a (List.mem_cons_self a rest)
    have hrest : ∀ x ∈ rest, isFIFOAct x = true :=
      fun x hx => hf x (List.mem_cons_of_mem a hx)
    cases a with
    | emit p =>
      simpa only [runAsync] using ih (issueItem s p) hrest (asyncInv_issue s p h)
    | completeAt k =>
      have hk : k = 0 := by simpa [isFIFOAct] using ha
      subst hk
      simpa only [runAsync] using ih (completeOp s 0) hrest (asyncInv_complete0 s h)

/-- C4 amended: the executor issues the append of each item before its
"new" notification but does not await the append before issuing the
notification.  When the store completes the operations in issue order
(FIFO), every observable notification count is covered by items already
in the list — the claimed property holds exactly under in-order
completion. -/
theorem C4_fifo_completion_no_early_notification (acts : List EAct)
    (hf : ∀ a ∈ acts, isFIFOAct a = true) :
    (runAsync initAsync acts).notifications ≤
      (runAsync initAsync acts).list.length := by
  have h0 : AsyncInv initAsync := by
    constructor <;> simp [initAsync, sumBal, minBal]
  have h := asyncInv_run acts initAsync hf h0
  have hm := minBal_nonpos (runAsync initAsync acts).pending
  obtain ⟨h1, h2⟩ := h
  omega

/-- Witness for the amended C4: one item issued, both operations
completed oldest-first. -/
theorem C4_fifo_completion_no_early_notification_witness :
    (runAsync initAsync [.emit "x", .completeAt 0, .completeAt 0]).notifications ≤
      (runAsync initAsync [.emit "x", .completeAt 0, .completeAt 0]).list.length :=
  C4_fifo_completion_no_early_notification
    [.emit "x", .completeAt 0, .completeAt 0] (by decide)

/-! ## Executor lock acquisition (`run_agent_background.py` lines 112-174)

`agent_run_lock:run_id` holds `instance_id:unix_seconds`.  An executor
first attempts `SET ... NX`; on failure it reads the value, and only when
the embedded timestamp is older than `REDIS_KEY_TTL // 2` does it attempt
the compare-and-set reclaim script of lines 146-154; otherwise, or when
the compare-and-set finds a changed value, it returns with no effect. -/

/-- `REDIS_KEY_TTL` from `services/redis.py` (seconds). -/
def REDIS_KEY_TTL : Int := 3600 * 24

/-- A parsed lock value `instance_id:timestamp`. -/
structure LockVal where
  inst : String
  ts : Int
deriving Repr, DecidableEq

/-- Program counter of one executor's phase-1 attempt: the SET NX, the
GET after a failed SET NX, the compare-and-set after a stale read, and
the final outcome (`done true` = proceeds to execute the run). -/
inductive EPC
  | start
  | failedAcq
  | afterGet (v : Option LockVal)
  | casing (expected : LockVal)
  | done (proceeded : Bool)
deriving Repr, DecidableEq

/-- The identity and clock readings of one executor: `lockTs` is the
timestamp embedded in its lock value (line 114), `checkTs` the
`current_time` of the staleness check (line 140). -/
structure ExecParams where
  inst : String
  lockTs : Int
  checkTs : Int
deriving Repr, DecidableEq

/-- One atomic storage round-trip of the phase-1 logic of lines 112-174,
as a function of the executor's pc and the live lock value. -/
def lockStep (p : ExecParams) (ttl : Int) (pc : EPC) (lock : Option LockVal) :
    EPC × Option LockVal :=
  match pc with
  | .start =>
    match lock with
    | none => (.done true, some ⟨p.inst, p.lockTs⟩)
    | some _ => (.failedAcq, lock)
  | .failedAcq => (.afterGet lock, lock)
  | .afterGet none => (.done false, lock)
  | .afterGet (some v) =>
    if p.checkTs - v.ts > ttl / 2 then (.casing v, lock)
    else (.done false, lock)
  | .casing v =>
    if lock = some v then (.done true, some ⟨p.inst, p.lockTs⟩)
    else (.done false, lock)
  | .done b => (.done b, lock)

/-- Two executors' pcs plus the shared lock key. -/
structure TwoExecConfig where
  lock : Option LockVal
  pc0 : EPC
  pc1 : EPC
deriving Repr, DecidableEq

/-- Interleaving step: `who = false` steps executor 0, `who = true`
steps executor 1. -/
def twoStep (p0 p1 : ExecParams) (ttl : Int) (c : TwoExecConfig) (who : Bool) :
    TwoExecConfig :=
  if who then
    let r := lockStep p1 ttl c.pc1 c.lock
    { lock := r.2, pc0 := c.pc0, pc1 := r.1 }
  else
    let r := lockStep p0 ttl c.pc0 c.lock
    { lock := r.2, pc0 := r.1, pc1 := c.pc1 }

/-- Run an interleaving from the initial configuration (no lock, both
executors about to attempt the SET NX). -/
def twoRun (p0 p1 : ExecParams) (ttl : Int) (sched : List Bool) : TwoExecConfig :=
  sched.foldl (twoStep p0 p1 ttl) { lock := none, pc0 := .start, pc1 := .start }

/-- The reachable pcs of the executor that lost the SET NX race to
winner `w`, under fresh delivery: it can only be on its way to exiting
without side effect. -/
def loserOk (w : ExecParams) (pc : EPC) : Prop :=
  pc = .start ∨ pc = .failedAcq ∨ pc = .afterGet (some ⟨w.inst, w.lockTs⟩) ∨
    pc = .done false

/-- The two-executor invariant: before anyone acts the lock is free;
afterwards the SET NX winner holds the lock and has proceeded, while the
other executor is confined to the exit path. -/
def TwoInv (p0 p1 : ExecParams) (c : TwoExecConfig) : Prop :=
  (c.lock = none ∧ c.pc0 = .start ∧ c.pc1 = .start) ∨
  (c.lock = some ⟨p0.inst, p0.lockTs⟩ ∧ c.pc0 = .done true ∧ loserOk p0 c.pc1) ∨
  (c.lock = some ⟨p1.inst, p1.lockTs⟩ ∧ c.pc1 = .done true ∧ loserOk p1 c.pc0)

theorem twoStep_inv (p0 p1 : ExecParams) (ttl : Int)
    (h01 : p0.checkTs - p1.lockTs ≤ ttl / 2)
    (h10 : p1.checkTs - p0.lockTs ≤ ttl / 2)
    (c : TwoExecConfig) (who : Bool) (hinv : TwoInv p0 p1 c) :
    TwoInv p0 p1 (twoStep p0 p1 ttl c who) := by
  rcases hinv with ⟨hl, h0, h1⟩ | ⟨hl, h0, h1⟩ | ⟨hl, h0, h1⟩
  · cases who
    · right; left
      simp [twoStep, lockStep, hl, h0, h1, loserOk]
    · right; right
      simp [twoStep, lockStep, hl, h0, h1, loserOk]
  · cases who
    · right; left
      simp [twoStep, lockStep, hl, h0]
      exact h1
    · rcases h1 with h1 | h1 | h1 | h1
      · right; left
        simp [twoStep, lockStep, hl, h0, h1, loserOk]
      · right; left
        simp [twoStep, lockStep, hl, h0, h1, loserOk]
      · right; left
        have hfresh : ¬ p1.checkTs - p0.lockTs > ttl / 2 := by omega
        simp [twoStep, lockStep, hl, h0, h1, loserOk, hfresh]
      · right; left
        simp [twoStep, lockStep, hl, h0, h1, loserOk]
  · cases who
    · rcases h1 with h1 | h1 | h1 | h1
      · right; right
        simp [twoStep, lockStep, hl, h0, h1, loserOk]
      · right; right
        simp [twoStep, lockStep, hl, h0, h1, loserOk]
      · right; right
        have hfresh : ¬ p0.checkTs - p1.lockTs > ttl / 2 := by omega
        simp [twoStep, lockStep, hl, h0, h1, loserOk, hfresh]
      · right; right
        simp [twoStep, lockStep, hl, h0, h1, loserOk]
    · right; right
      simp [twoStep, lockStep, hl, h0]
      exact h1

theorem twoRun_inv (p0 p1 : ExecParams) (ttl : Int)
    (h01 : p0.checkTs - p1.lockTs ≤ ttl / 2)
    (h10 : p1.checkTs - p0.lockTs ≤ ttl / 2)
    (sched : List Bool) :
    TwoInv p0 p1 (twoRun p0 p1 ttl sched) := by
  have hgen : ∀ (l : List Bool) (c : TwoExecConfig), TwoInv p0 p1 c →
      TwoInv p0 p1 (l.foldl (twoStep p0 p1 ttl) c) := by
    intro l
    induction l with
    | nil => intro c hc; exact hc
    | cons who rest ih =>
      intro c hc
      exact ih _ (twoStep_inv p0 p1 ttl h01 h10 c who hc)
  exact hgen sched _ (Or.inl ⟨rfl, rfl, rfl⟩)

/-- C6: for a queued run delivered to two executors within half the lock
TTL of each other, never do both proceed, and when both have finished
phase 1 exactly one executed; moreover a failed SET NX reads the current
value and (a) exits with no effect when the embedded timestamp's age is
at most ttl/2, (b) attempts the compare-and-set reclaim on the exact read
value only when the age exceeds ttl/2, (c) proceeds when the
compare-and-set finds the value unchanged, and (d) exits with no effect
when it finds it changed. -/
theorem C6_dup_delivery_exactly_one (p0 p1 : ExecParams) (ttl : Int)
    (h01 : p0.checkTs - p1.lockTs ≤ ttl / 2)
    (h10 : p1.checkTs - p0.lockTs ≤ ttl / 2) :
    (∀ sched : List Bool, ¬ ((twoRun p0 p1 ttl sched).pc0 = .done true ∧
        (twoRun p0 p1 ttl sched).pc1 = .done true)) ∧
    (∀ (sched : List Bool) (b0 b1 : Bool),
        (twoRun p0 p1 ttl sched).pc0 = .done b0 →
        (twoRun p0 p1 ttl sched).pc1 = .done b1 →
        (b0 = true ∧ b1 = false) ∨ (b0 = false ∧ b1 = true)) ∧
    (∀ (q : ExecParams) (t : Int) (v : LockVal) (lock : Option LockVal),
        q.checkTs - v.ts ≤ t / 2 →
        lockStep q t (.afterGet (some v)) lock = (.done false, lock)) ∧
    (∀ (q : ExecParams) (t : Int) (v : LockVal) (lock : Option LockVal),
        q.checkTs - v.ts > t / 2 →
        lockStep q t (.afterGet (some v)) lock = (.casing v, lock)) ∧
    (∀ (q : ExecParams) (t : Int) (v : LockVal),
        lockStep q t (.casing v) (some v) = (.done true, some ⟨q.inst, q.lockTs⟩)) ∧
    (∀ (q : ExecParams) (t : Int) (v : LockVal) (lock : Option LockVal),
        lock ≠ some v →
        lockStep q t (.casing v) lock = (.done false, lock)) := by
  refine ⟨?_, ?_, ?_, ?_, ?_, ?_⟩
  · intro sched hboth
    obtain ⟨hp0, hp1⟩ := hboth
    rcases twoRun_inv p0 p1 ttl h01 h10 sched with ⟨_, h0, h1⟩ | ⟨_, h0, h1⟩ | ⟨_, h0, h1⟩
    · exact absurd (h0.symm.trans hp0) (by simp)
    · rcases h1 with h | h | h | h <;> exact absurd (h.symm.trans hp1) (by simp)
    · rcases h1 with h | h | h | h <;> exact absurd (h.symm.trans hp0) (by simp)
  · intro sched b0 b1 hp0 hp1
    rcases twoRun_inv p0 p1 ttl h01 h10 sched with ⟨_, h0, h1⟩ | ⟨_, h0, h1⟩ | ⟨_, h0, h1⟩
    · exact absurd (h0.symm.trans hp0) (by simp)
    · left
      have hb0 : b0 = true := by
        have h' := h0.symm.trans hp0
        cases b0
        · simp at h'
        · rfl
      have hb1 : b1 = false := by
        rcases h1 with h | h | h | h
        · exact absurd (h.symm.trans hp1) (by simp)
        · exact absurd (h.symm.trans hp1) (by simp)
        · exact absurd (h.symm.trans hp1) (by simp)
        · have h' := h.symm.trans hp1
          cases b1
          · rfl
          · simp at h'
      exact ⟨hb0, hb1⟩
    · right
      have hb1 : b1 = true := by
        have h' := h0.symm.trans hp1
        cases b1
        · simp at h'
        · rfl
      have hb0 : b0 = false := by
        rcases h1 with h | h | h | h
        · exact absurd (h.symm.trans hp0) (by simp)
        · exact absurd (h.symm.trans hp0) (by simp)
        · exact absurd (h.symm.trans hp0) (by simp)
        · have h' := h.symm.trans hp0
          cases b0
          · rfl
          · simp at h'
      exact ⟨hb0, hb1⟩
  · intro q t v lock h
    have h' : ¬ q.checkTs - v.ts > t / 2 := by omega
    simp [lockStep, h']
  · intro q t v lock h
    simp [lockStep, h]
  · intro q t v
    simp [lockStep]
  · intro q t v lock h
    simp [lockStep, h]

/-- Witness for C6: two executors "A" and "B" with identical clocks and
the default 24 h TTL. -/
theorem C6_dup_delivery_exactly_one_witness :
    (∀ sched : List Bool,
      ¬ ((twoRun ⟨"A", 100, 100⟩ ⟨"B", 100, 100⟩ REDIS_KEY_TTL sched).pc0 = .done true ∧
         (twoRun ⟨"A", 100, 100⟩ ⟨"B", 100, 100⟩ REDIS_KEY_TTL sched).pc1 = .done true)) ∧
    (∀ (sched : List Bool) (b0 b1 : Bool),
        (twoRun ⟨"A", 100, 100⟩ ⟨"B", 100, 100⟩ REDIS_KEY_TTL sched).pc0 = .done b0 →
        (twoRun ⟨"A", 100, 100⟩ ⟨"B", 100, 100⟩ REDIS_KEY_TTL sched).pc1 = .done b1 →
        (b0 = true ∧ b1 = false) ∨ (b0 = false ∧ b1 = true)) ∧
    (∀ (q : ExecParams) (t : Int) (v : LockVal) (lock : Option LockVal),
        q.checkTs - v.ts ≤ t / 2 →
        lockStep q t (.afterGet (some v)) lock = (.done false, lock)) ∧
    (∀ (q : ExecParams) (t : Int) (v : LockVal) (lock : Option LockVal),
        q.checkTs - v.ts > t / 2 →
        lockStep q t (.afterGet (some v)) lock = (.casing v, lock)) ∧
    (∀ (q : ExecParams) (t : Int) (v : LockVal),
        lockStep q t (.casing v) (some v) = (.done true, some ⟨q.inst, q.lockTs⟩)) ∧
    (∀ (q : ExecParams) (t : Int) (v : LockVal) (lock : Option LockVal),
        lock ≠ some v →
        lockStep q t (.casing v) lock = (.done false, lock)) :=
  C6_dup_delivery_exactly_one ⟨"A", 100, 100⟩ ⟨"B", 100, 100⟩ REDIS_KEY_TTL
    (by decide) (by decide)
